import Mathlib

/-!
Verification of the wake-detection and adaptive-repair core of the
gpd-touch-fix service.

The definitions below are a shallow embedding of the Go source:

* `WakeEventPoller`, `ResetRetryState`, `incrementFails`, `Pause`,
  `Resume`, `pollStart`, `pollTick` embed the poll-based wake detector
  (struct `WakeEventPoller` and its methods, including the body of the
  `poll` goroutine: `pollStart` is the initial status check performed
  before the ticker loop, `pollTick` is one iteration of the ticker
  case of the loop, with the loop-local `exceededMaxRetry` variable
  carried in `LoopState`).
* `PowerMonitor`, `triggerResume`, `HandlePowerBroadcast` embed the
  event-driven resume channel.
* `handlePolledWake` embeds the repair orchestrator
  `gpdTouchService.handlePolledWake`.

External effects are passed in as explicit inputs: a device status
query result is `Option String` (`none` models a `GetStatus` error),
the idle-time query result is `Option Nat` (milliseconds; `none`
models a `GetIdleTime` error), the repair callback's return value is a
`Bool` input, and timestamps are abstract naturals/integers.  The
repair callback is modelled as present (the service always installs
one); invoking it is reported through `repairAttempted` flags.
-/

namespace GpdTouchFix

/-- State of the Go struct `WakeEventPoller`: the configuration fields
(`baseRetryInterval`, `maxRetryInterval`, `maxRetryCount`) together
with the mutable fields guarded by its mutex.  Channels, logger,
device id and the callback pointer are not data and are omitted;
durations and timestamps are abstract `Nat` units. -/
structure WakeEventPoller where
  baseRetryInterval : Nat
  maxRetryInterval : Nat
  maxRetryCount : Nat
  lastStatus : String
  pendingRepair : Bool
  lastRepairTime : Nat
  consecutiveFails : Nat
  currentInterval : Nat
  paused : Bool
deriving DecidableEq, Repr

/-- Embeds `NewWakeEventPoller`: fresh state with the given resolved
configuration (the Go constructor substitutes defaults for absent
config values before reaching this state; claims quantify over the
resolved values). `lastStatus` starts as the Go zero string. -/
def NewWakeEventPoller (baseInterval maxInterval maxRetry : Nat) : WakeEventPoller :=
  { baseRetryInterval := baseInterval
    maxRetryInterval := maxInterval
    maxRetryCount := maxRetry
    lastStatus := ""
    pendingRepair := false
    lastRepairTime := 0
    consecutiveFails := 0
    currentInterval := baseInterval
    paused := false }

/-- Embeds `WakeEventPoller.ResetRetryState`. -/
def ResetRetryState (p : WakeEventPoller) : WakeEventPoller :=
  { p with consecutiveFails := 0, currentInterval := p.baseRetryInterval }

/-- Embeds `WakeEventPoller.incrementFails`.  Returns the updated
state and the Go return value (`false` means the retry limit has been
reached and the caller should stop retrying; in that branch the
backoff interval is not doubled). -/
def incrementFails (p : WakeEventPoller) : WakeEventPoller × Bool :=
  let p := { p with consecutiveFails := p.consecutiveFails + 1 }
  if p.maxRetryCount > 0 ∧ p.consecutiveFails ≥ p.maxRetryCount then
    (p, false)
  else
    let d := p.currentInterval * 2
    let d := if d > p.maxRetryInterval then p.maxRetryInterval else d
    ({ p with currentInterval := d }, true)

/-- Embeds `WakeEventPoller.Pause` (idempotent: the only state effect
in the Go method is setting `paused` to true). -/
def Pause (p : WakeEventPoller) : WakeEventPoller :=
  { p with paused := true }

/-- Result of a `Resume` call: the new poller state, whether the
deferred-repair goroutine queried the device status, and whether it
invoked the repair callback. -/
structure ResumeResult where
  poller : WakeEventPoller
  statusQueried : Bool
  repairAttempted : Bool
deriving DecidableEq, Repr

/-- Embeds `WakeEventPoller.Resume`, with the body of the
deferred-repair goroutine (which runs when the poller was paused with
`pendingRepair` set) folded in: `status` is the result of its single
`GetStatus` call (`none` models a query error) and `repairResult` the
return value of the repair callback if invoked. -/
def Resume (p : WakeEventPoller) (status : Option String) (repairResult : Bool) :
    ResumeResult :=
  if p.paused then
    let q := { p with paused := false }
    if q.pendingRepair then
      match status with
      | some st =>
        if st ≠ "OK" then
          if repairResult then
            ⟨ResetRetryState { q with pendingRepair := false }, true, true⟩
          else
            ⟨q, true, true⟩
        else
          ⟨{ q with pendingRepair := false }, true, false⟩
      | none => ⟨q, true, false⟩
    else
      ⟨q, false, false⟩
  else
    ⟨p, false, false⟩

/-- The loop-local state of the `poll` goroutine: the shared poller
state plus the local `exceededMaxRetry` flag. -/
structure LoopState where
  poller : WakeEventPoller
  exceededMaxRetry : Bool
deriving DecidableEq, Repr

/-- External inputs consumed by one ticker iteration of `poll`:
the `GetStatus` result, the `GetIdleTime` result in milliseconds
(`none` models an error), the current time, and the value the repair
callback returns if it is invoked. -/
structure TickInput where
  status : Option String
  idleMs : Option Nat
  now : Nat
  repairResult : Bool
deriving DecidableEq, Repr

/-- Result of one ticker iteration: the new loop state, whether a
device status query was issued, and whether the repair callback was
invoked. -/
structure TickResult where
  state : LoopState
  statusQueried : Bool
  repairAttempted : Bool
deriving DecidableEq, Repr

/-- The idle time in whole seconds as computed in `poll`:
`idleSec := -1`, overwritten by `int(idleMs / 1000)` when the
`GetIdleTime` call succeeds. -/
def idleSecOf (idleMs : Option Nat) : Int :=
  match idleMs with
  | none => -1
  | some ms => ((ms / 1000 : Nat) : Int)

/-- The repair block shared by `poll`'s branches: invoke the callback,
record `lastRepairTime`, then reset the retry state on success or
`incrementFails` on failure.  The second component is true when
`incrementFails` reported that the retry limit was reached (the caller
sets `exceededMaxRetry` from it). -/
def applyRepair (p : WakeEventPoller) (now : Nat) (success : Bool) :
    WakeEventPoller × Bool :=
  let p := { p with lastRepairTime := now }
  if success then
    (ResetRetryState p, false)
  else
    let r := incrementFails p
    (r.1, !r.2)

/-- Embeds one `ticker.C` iteration of `WakeEventPoller.poll`. -/
def pollTick (ls : LoopState) (inp : TickInput) : TickResult :=
  if ls.poller.paused then
    ⟨ls, false, false⟩
  else if ls.exceededMaxRetry then
    match inp.status with
    | some st =>
      if st = "OK" then
        ⟨⟨{ ResetRetryState ls.poller with lastStatus := st }, false⟩, true, false⟩
      else
        ⟨ls, true, false⟩
    | none => ⟨ls, true, false⟩
  else
    match inp.status with
    | none => ⟨ls, true, false⟩
    | some st =>
      let p := ls.poller
      let p := if st = "OK" then { p with pendingRepair := false } else p
      let idleSec := idleSecOf inp.idleMs
      if st ≠ "OK" ∧ p.lastStatus = "OK" then
        if idleSec < 0 ∨ idleSec ≥ 300 then
          ⟨⟨{ p with pendingRepair := true, lastStatus := st }, false⟩, true, false⟩
        else
          let p := ResetRetryState { p with pendingRepair := false }
          let r := applyRepair p inp.now inp.repairResult
          ⟨⟨{ r.1 with lastStatus := st }, r.2⟩, true, true⟩
      else if st ≠ "OK" ∧ p.lastStatus ≠ "OK" then
        if p.pendingRepair then
          if idleSec ≥ 0 ∧ idleSec ≤ 60 then
            let p := ResetRetryState { p with pendingRepair := false }
            let r := applyRepair p inp.now inp.repairResult
            ⟨⟨{ r.1 with lastStatus := st }, r.2⟩, true, true⟩
          else
            ⟨⟨p, false⟩, true, false⟩
        else
          if idleSec ≥ 0 ∧ idleSec > 60 then
            ⟨⟨p, false⟩, true, false⟩
          else if inp.now - p.lastRepairTime > p.currentInterval then
            let r := applyRepair p inp.now inp.repairResult
            ⟨⟨{ r.1 with lastStatus := st }, r.2⟩, true, true⟩
          else
            ⟨⟨{ p with lastStatus := st }, false⟩, true, false⟩
      else
        ⟨⟨{ p with lastStatus := st }, false⟩, true, false⟩

/-- Embeds the initial status check `poll` performs before entering
the ticker loop: on a successful query the status is stored and, if it
is not OK, a repair is attempted immediately; the return value of
`incrementFails` is ignored here, so `exceededMaxRetry` is left
false. -/
def pollStart (p : WakeEventPoller) (status : Option String) (repairResult : Bool)
    (now : Nat) : LoopState :=
  match status with
  | none => ⟨p, false⟩
  | some st =>
    let p := { p with lastStatus := st }
    if st ≠ "OK" then
      let p := { p with lastRepairTime := now }
      if repairResult then
        ⟨ResetRetryState p, false⟩
      else
        ⟨(incrementFails p).1, false⟩
    else
      ⟨p, false⟩

/-- Aggregate result of running a sequence of ticker iterations. -/
structure RunResult where
  final : LoopState
  anyQueried : Bool
  anyRepaired : Bool
deriving DecidableEq, Repr

/-- Runs `pollTick` over a list of tick inputs, recording whether any
tick queried the device status or attempted a repair. -/
def runTicks (ls : LoopState) : List TickInput → RunResult
  | [] => ⟨ls, false, false⟩
  | inp :: rest =>
    let r := pollTick ls inp
    let rest := runTicks r.state rest
    ⟨rest.final, r.statusQueried || rest.anyQueried,
      r.repairAttempted || rest.anyRepaired⟩

/-- The power-setting GUIDs the power monitor distinguishes.  GUID
values are opaque to the logic; only equality with the two monitored
GUIDs matters, so they are embedded as an enumeration (`other` stands
for any non-monitored GUID). -/
inductive PowerGUID where
  | consoleDisplayState
  | monitorPowerOn
  | systemAwaymode
  | other
deriving DecidableEq, Repr

/-- Display-power state constant `DisplayStateOff = 0`. -/
def DisplayStateOff : Nat := 0

/-- Display-power state constant `DisplayStateDimmed = 1`. -/
def DisplayStateDimmed : Nat := 1

/-- Display-power state constant `DisplayStateOn = 2`. -/
def DisplayStateOn : Nat := 2

/-- The `PBT_POWERSETTINGCHANGE` event-type code. -/
def PBT_POWERSETTINGCHANGE : Nat := 0x8013

/-- State of the Go struct `PowerMonitor`.  Timestamps are abstract
integers (`time.Time` differences map to integer subtraction);
`lastResumeTime` starts at the Go zero time, far in the past relative
to any event timestamp.  The callback pointer is omitted; invoking it
is reported through the boolean results below. -/
structure PowerMonitor where
  lastDisplayState : Nat
  lastResumeTime : Int
  minInterval : Int
deriving DecidableEq, Repr

/-- Embeds `PowerMonitor.triggerResume` at time `now`: the trigger is
suppressed when less than `minInterval` has passed since the last
accepted trigger; otherwise `lastResumeTime` is updated and the
callback fires (second component true). -/
def triggerResume (pm : PowerMonitor) (now : Int) : PowerMonitor × Bool :=
  if now - pm.lastResumeTime < pm.minInterval then
    (pm, false)
  else
    ({ pm with lastResumeTime := now }, true)

/-- One power-broadcast notification as parsed by
`HandlePowerBroadcast`: the event-type code and, for setting-change
events, the parsed `PowerBroadcastSetting` payload (GUID and first
data byte); `none` models a null `eventData` pointer. -/
structure BroadcastInput where
  eventType : Nat
  setting : Option (PowerGUID × Nat)
deriving DecidableEq, Repr

/-- Embeds `PowerMonitor.HandlePowerBroadcast` at time `now`. -/
def HandlePowerBroadcast (pm : PowerMonitor) (now : Int) (inp : BroadcastInput) :
    PowerMonitor × Bool :=
  if inp.eventType ≠ PBT_POWERSETTINGCHANGE then
    if inp.eventType = 7 ∨ inp.eventType = 18 then
      triggerResume pm now
    else
      (pm, false)
  else
    match inp.setting with
    | none => (pm, false)
    | some (g, d) =>
      if g = PowerGUID.consoleDisplayState ∨ g = PowerGUID.monitorPowerOn then
        let old := pm.lastDisplayState
        let pm := { pm with lastDisplayState := d }
        if old = DisplayStateOff ∧ d = DisplayStateOn then
          triggerResume pm now
        else
          (pm, false)
      else
        (pm, false)

/-- The event shapes `HandlePowerBroadcast` classifies as resume
triggers: a legacy power event with code 7 or 18, or a monitored
display-power setting change from stored state off to new state on. -/
def IsResumeTriggerEvent (pm : PowerMonitor) (inp : BroadcastInput) : Prop :=
  (inp.eventType ≠ PBT_POWERSETTINGCHANGE ∧ (inp.eventType = 7 ∨ inp.eventType = 18)) ∨
  (inp.eventType = PBT_POWERSETTINGCHANGE ∧
    match inp.setting with
    | some (g, d) =>
      (g = PowerGUID.consoleDisplayState ∨ g = PowerGUID.monitorPowerOn) ∧
      pm.lastDisplayState = DisplayStateOff ∧ d = DisplayStateOn
    | none => False)

/-- External results consumed by one run of
`gpdTouchService.handlePolledWake`: the pre-reset status query
(`none` models a query error), whether `dm.Reset` returned nil, and
the post-reset verification query. -/
structure WakeInput where
  preStatus : Option String
  resetOk : Bool
  postStatus : Option String
deriving DecidableEq, Repr

/-- Observable outcome of one `handlePolledWake` run: the boolean
return value, whether `RecordSkip` was called, the success flag passed
to `RecordReset` if it was called, whether `dm.Reset` was invoked,
whether the post-reset verification query was performed, and the last
status string successfully observed during the run. -/
structure WakeResult where
  returned : Bool
  recordedSkip : Bool
  recordedReset : Option Bool
  resetInvoked : Bool
  postQueried : Bool
  lastObserved : Option String
deriving DecidableEq, Repr

/-- Models `strings.EqualFold(s, "OK")`: case-insensitive equality
with the two-letter ASCII string "OK", spelled out over the four
case variants so that it evaluates by kernel reduction. -/
def eqFoldOK (s : String) : Bool :=
  s == "OK" || s == "Ok" || s == "oK" || s == "ok"

/-- The reset-and-verify tail of `handlePolledWake`, reached when the
pre-check did not observe an OK status (`pre` is the last status
observed so far). -/
def resetAndVerify (inp : WakeInput) (pre : Option String) : WakeResult :=
  if !inp.resetOk then
    ⟨false, false, some false, true, false, pre⟩
  else
    match inp.postStatus with
    | none => ⟨false, false, some false, true, true, pre⟩
    | some fs =>
      if eqFoldOK fs then
        ⟨true, false, some true, true, true, some fs⟩
      else
        ⟨false, false, some false, true, true, some fs⟩

/-- Embeds `gpdTouchService.handlePolledWake` (the repair
orchestrator): re-check status after the settle delay and skip if
already OK, otherwise reset the device and classify the outcome by a
verification query. -/
def handlePolledWake (inp : WakeInput) : WakeResult :=
  match inp.preStatus with
  | some st =>
    if eqFoldOK st then
      ⟨true, true, none, false, false, some st⟩
    else
      resetAndVerify inp (some st)
  | none => resetAndVerify inp none

/-! ## Claim theorems -/

/-- C1: on a non-paused, non-exhausted tick whose fresh status is not
OK while the stored `lastStatus` is OK: if the idle query fails or
reports at least 300 seconds of idle time, the tick sets
`pendingRepair`, stores the new status and performs no repair, leaving
the backoff fields untouched; otherwise it attempts exactly one repair
in the tick (the reported repair flag counts the single callback
invocation), leaves `pendingRepair` false, stores the status, and the
repair starts from a reset backoff state: on success the counters stay
reset, on failure the failure counter is exactly 1. -/
theorem c1_ok_to_error_tick (ls : LoopState) (inp : TickInput) (st : String)
    (hpause : ls.poller.paused = false)
    (hexc : ls.exceededMaxRetry = false)
    (hst : inp.status = some st)
    (hne : st ≠ "OK")
    (hlast : ls.poller.lastStatus = "OK") :
    ((inp.idleMs = none ∨ ∃ ms, inp.idleMs = some ms ∧ 300 ≤ ms / 1000) →
      (pollTick ls inp).repairAttempted = false ∧
      (pollTick ls inp).state.poller.pendingRepair = true ∧
      (pollTick ls inp).state.poller.lastStatus = st ∧
      (pollTick ls inp).state.poller.consecutiveFails = ls.poller.consecutiveFails ∧
      (pollTick ls inp).state.poller.currentInterval = ls.poller.currentInterval ∧
      (pollTick ls inp).state.poller.lastRepairTime = ls.poller.lastRepairTime) ∧
    ((∃ ms, inp.idleMs = some ms ∧ ms / 1000 < 300) →
      (pollTick ls inp).repairAttempted = true ∧
      (pollTick ls inp).state.poller.pendingRepair = false ∧
      (pollTick ls inp).state.poller.lastStatus = st ∧
      (inp.repairResult = true →
        (pollTick ls inp).state.poller.consecutiveFails = 0 ∧
        (pollTick ls inp).state.poller.currentInterval = ls.poller.baseRetryInterval) ∧
      (inp.repairResult = false →
        (pollTick ls inp).state.poller.consecutiveFails = 1 ∧
        (pollTick ls inp).state.poller.lastRepairTime = inp.now)) := by
  have hcond : st ≠ "OK" ∧ ls.poller.lastStatus = "OK" := ⟨hne, hlast⟩
  constructor
  · intro hidle
    have hsec : idleSecOf inp.idleMs < 0 ∨ idleSecOf inp.idleMs ≥ 300 := by
      rcases hidle with h | ⟨ms, hms, hge⟩
      · left; simp [idleSecOf, h]
      · right; simp only [idleSecOf, hms]; exact_mod_cast hge
    simp [pollTick, hpause, hexc, hst, hne, hlast, hsec]
  · intro ⟨ms, hms, hlt⟩
    have hsec : ¬(idleSecOf inp.idleMs < 0 ∨ idleSecOf inp.idleMs ≥ 300) := by
      simp only [idleSecOf, hms]
      push_cast
      omega
    rcases hrr : inp.repairResult with _ | _ <;>
      simp [pollTick, hpause, hexc, hst, hne, hlast, hsec, applyRepair,
        ResetRetryState, incrementFails, hrr]
    split <;> simp

/-- Concrete poller state used to witness C1: status OK, paused and
exhausted flags clear. -/
def lsC1 : LoopState :=
  ⟨{ NewWakeEventPoller 5 100 3 with lastStatus := "OK" }, false⟩

/-- Concrete tick input used to witness C1: error status with a failed
idle-time query. -/
def inpC1 : TickInput := ⟨some "Error", none, 50, true⟩

/-- Witness for C1 at a concrete OK-to-error tick whose idle query
fails: the repair is deferred and `pendingRepair` is set. -/
theorem c1_ok_to_error_tick_witness :
    (pollTick lsC1 inpC1).repairAttempted = false ∧
    (pollTick lsC1 inpC1).state.poller.pendingRepair = true := by
  have h := c1_ok_to_error_tick lsC1 inpC1 "Error" rfl rfl rfl (by decide) rfl
  exact ⟨(h.1 (Or.inl rfl)).1, (h.1 (Or.inl rfl)).2.1⟩

/-- C2: calling `Resume` while paused with `pendingRepair` set
performs exactly one status recheck; if it reports OK, `pendingRepair`
is cleared without a repair call; if it reports a non-OK status, one
repair is attempted and `pendingRepair` is cleared exactly when the
repair reports success. -/
theorem c2_resume_pending_recheck (p : WakeEventPoller) (st : String) (rres : Bool)
    (hp : p.paused = true) (hpr : p.pendingRepair = true) :
    (Resume p (some st) rres).statusQueried = true ∧
    (st = "OK" →
      (Resume p (some st) rres).repairAttempted = false ∧
      (Resume p (some st) rres).poller.pendingRepair = false) ∧
    (st ≠ "OK" →
      (Resume p (some st) rres).repairAttempted = true ∧
      ((Resume p (some st) rres).poller.pendingRepair = false ↔ rres = true)) := by
  by_cases hok : st = "OK"
  · subst hok
    simp [Resume, hp, hpr]
  · rcases hrr : rres with _ | _ <;>
      simp [Resume, hp, hpr, hok, ResetRetryState, hrr]

/-- Concrete paused poller state with a pending repair, used to
witness C2. -/
def pC2 : WakeEventPoller :=
  { NewWakeEventPoller 5 100 3 with paused := true, pendingRepair := true }

/-- Witness for C2 at a concrete resume whose recheck reports OK: one
query, no repair, `pendingRepair` cleared. -/
theorem c2_resume_pending_recheck_witness :
    (Resume pC2 (some "OK") false).statusQueried = true ∧
    (Resume pC2 (some "OK") false).repairAttempted = false ∧
    (Resume pC2 (some "OK") false).poller.pendingRepair = false := by
  have h := c2_resume_pending_recheck pC2 "OK" false rfl rfl
  exact ⟨h.1, (h.2.1 rfl).1, (h.2.1 rfl).2⟩

/-- C10: calling `Resume` when the poller is not paused is a complete
no-op: the state is returned unchanged and neither a status query nor
a repair happens, even if `pendingRepair` is set. -/
theorem c10_resume_unpaused_noop (p : WakeEventPoller) (status : Option String)
    (rres : Bool) (h : p.paused = false) :
    Resume p status rres = ⟨p, false, false⟩ := by
  simp [Resume, h]

/-- Concrete unpaused poller state with `pendingRepair` set, used to
witness C10. -/
def pC10 : WakeEventPoller :=
  { NewWakeEventPoller 5 100 3 with pendingRepair := true }

/-- Witness for C10: a resume call on a concrete unpaused state with a
pending repair changes nothing. -/
theorem c10_resume_unpaused_noop_witness :
    Resume pC10 (some "Error") true = ⟨pC10, false, false⟩ :=
  c10_resume_unpaused_noop pC10 (some "Error") true rfl

/-- A tick on a paused poller does nothing: no status query, no
repair, no state change. -/
lemma pollTick_paused (ls : LoopState) (inp : TickInput)
    (h : ls.poller.paused = true) :
    pollTick ls inp = ⟨ls, false, false⟩ := by
  simp [pollTick, h]

/-- C6: after `Pause`, every further tick is skipped entirely — the
state never changes and no tick issues a status query or a repair
attempt — for as long as `paused` stays set (only `Resume` clears
it). -/
theorem c6_paused_ticks_skipped (p : WakeEventPoller) (e : Bool)
    (inps : List TickInput) :
    runTicks ⟨Pause p, e⟩ inps = ⟨⟨Pause p, e⟩, false, false⟩ := by
  induction inps with
  | nil => rfl
  | cons i rest ih =>
    have hp : (⟨Pause p, e⟩ : LoopState).poller.paused = true := by
      simp [Pause]
    simp [runTicks, pollTick_paused _ _ hp, ih]

/-- C7: a resume trigger accepted at `t1` suppresses any second
trigger arriving less than `minInterval` later: the second call
returns false and leaves the monitor state (including the last-trigger
time) unchanged, so across the pair the callback is invoked exactly
once, by the first trigger. -/
theorem c7_trigger_debounce (pm : PowerMonitor) (t1 t2 : Int)
    (h1 : (triggerResume pm t1).2 = true)
    (h2 : t2 - t1 < pm.minInterval) :
    triggerResume (triggerResume pm t1).1 t2 = ((triggerResume pm t1).1, false) := by
  by_cases hc : t1 - pm.lastResumeTime < pm.minInterval
  · simp [triggerResume, hc] at h1
  · simp [triggerResume, hc, h2]

/-- Concrete power-monitor state used to witness C7. -/
def pmC7 : PowerMonitor := ⟨DisplayStateOn, 0, 5⟩

/-- Witness for C7: a trigger at time 10 is accepted, and a second one
at time 12 (2 units later, below the 5-unit minimum) is suppressed
without touching the state. -/
theorem c7_trigger_debounce_witness :
    triggerResume (triggerResume pmC7 10).1 12 = ((triggerResume pmC7 10).1, false) :=
  c7_trigger_debounce pmC7 10 12 (by decide) (by decide)

/-- Concrete loop state used for the C3 counterexample: sustained
error, no pending repair. -/
def lsC3 : LoopState :=
  ⟨{ NewWakeEventPoller 1 10 0 with lastStatus := "Error" }, false⟩

/-- Concrete tick input for the C3 counterexample: the device is still
in error and the idle-time query fails. -/
def inpC3 : TickInput := ⟨some "Error", none, 100, true⟩

/-- Counterexample to C3 as stated: on a sustained-error tick with
`pendingRepair` false whose idle-time query fails, the code still
attempts a repair, so "a repair is attempted only while the system
idle time is <= 60 seconds" is false — no known idle time at most 60
seconds exists for this tick. -/
theorem c3_counterexample :
    ¬((pollTick lsC3 inpC3).repairAttempted = true →
      ∃ ms, inpC3.idleMs = some ms ∧ ms / 1000 ≤ 60) := by
  intro h
  obtain ⟨ms, hms, _⟩ := h (by decide)
  simp [inpC3] at hms

/-- C3 as amended: on a non-paused, non-exhausted tick where both the
new status and `lastStatus` are not OK and `pendingRepair` is false, a
repair is attempted exactly when the idle time is unknown (query
failed) or at most 60 seconds, and more than `currentBackoffInterval`
has elapsed since `lastRepairTime`; in particular, whenever the known
idle time exceeds 60 seconds no repair occurs in that tick. -/
theorem c3_amended_sustained_error (ls : LoopState) (inp : TickInput) (st : String)
    (hpause : ls.poller.paused = false)
    (hexc : ls.exceededMaxRetry = false)
    (hst : inp.status = some st)
    (hne : st ≠ "OK")
    (hlast : ls.poller.lastStatus ≠ "OK")
    (hpr : ls.poller.pendingRepair = false) :
    ((pollTick ls inp).repairAttempted = true ↔
      ((inp.idleMs = none ∨ ∃ ms, inp.idleMs = some ms ∧ ms / 1000 ≤ 60) ∧
        inp.now - ls.poller.lastRepairTime > ls.poller.currentInterval)) ∧
    (∀ ms, inp.idleMs = some ms → ms / 1000 > 60 →
      (pollTick ls inp).repairAttempted = false) := by
  have hidle : (idleSecOf inp.idleMs ≥ 0 ∧ idleSecOf inp.idleMs > 60) ↔
      ¬(inp.idleMs = none ∨ ∃ ms, inp.idleMs = some ms ∧ ms / 1000 ≤ 60) := by
    rcases hi : inp.idleMs with _ | ms
    · simp [idleSecOf]
    · simp only [idleSecOf]
      constructor
      · rintro ⟨-, hgt⟩
        simp only [reduceCtorEq, false_or, not_exists, not_and]
        rintro m hm
        obtain rfl : ms = m := by simpa using hm
        omega
      · intro hnot
        simp only [reduceCtorEq, false_or, not_exists, not_and] at hnot
        have := hnot ms rfl
        constructor
        · positivity
        · exact_mod_cast by omega
  constructor
  · by_cases hcase : idleSecOf inp.idleMs ≥ 0 ∧ idleSecOf inp.idleMs > 60
    · have hn := hidle.mp hcase
      simp [pollTick, hpause, hexc, hst, hne, hlast, hpr, hcase, hn]
    · have hy : inp.idleMs = none ∨ ∃ ms, inp.idleMs = some ms ∧ ms / 1000 ≤ 60 := by
        by_contra hcon
        exact hcase (hidle.mpr hcon)
      by_cases hint : inp.now - ls.poller.lastRepairTime > ls.poller.currentInterval
      · simp [pollTick, hpause, hexc, hst, hne, hlast, hpr, hcase, hint, hy]
      · simp [pollTick, hpause, hexc, hst, hne, hlast, hpr, hcase, hint, hy]
  · intro ms hms hgt
    have hcase : idleSecOf inp.idleMs ≥ 0 ∧ idleSecOf inp.idleMs > 60 := by
      simp only [idleSecOf, hms]
      constructor
      · positivity
      · exact_mod_cast hgt
    simp [pollTick, hpause, hexc, hst, hne, hlast, hpr, hcase]

/-- Witness for the amended C3 at a concrete sustained-error tick with
an unknown idle time and an expired backoff interval: the repair is
attempted. -/
theorem c3_amended_sustained_error_witness :
    (pollTick lsC3 inpC3).repairAttempted = true := by
  have h := c3_amended_sustained_error lsC3 inpC3 "Error" rfl rfl rfl (by decide)
    (by decide) rfl
  exact h.1.mpr ⟨Or.inl rfl, by decide⟩

/-- A tick in the backoff-exhausted state whose status query does not
return OK changes nothing and attempts no repair. -/
lemma pollTick_exhausted (ls : LoopState) (inp : TickInput)
    (he : ls.exceededMaxRetry = true) (hok : inp.status ≠ some "OK") :
    (pollTick ls inp).state = ls ∧ (pollTick ls inp).repairAttempted = false := by
  by_cases hp : ls.poller.paused = true
  · simp [pollTick, hp]
  · replace hp : ls.poller.paused = false := by simpa using hp
    rcases hst : inp.status with _ | st
    · simp [pollTick, hp, he, hst]
    · have hne : ¬(st = "OK") := by
        rintro rfl
        exact hok hst
      simp [pollTick, hp, he, hst, hne]

/-- While the exhausted flag is set, a whole run of ticks none of
which observes an OK status leaves the state untouched and attempts no
repair. -/
lemma runTicks_exhausted (inps : List TickInput) (ls : LoopState)
    (he : ls.exceededMaxRetry = true)
    (hok : ∀ inp ∈ inps, inp.status ≠ some "OK") :
    (runTicks ls inps).final = ls ∧ (runTicks ls inps).anyRepaired = false := by
  induction inps generalizing ls with
  | nil => exact ⟨rfl, rfl⟩
  | cons i rest ih =>
    have hstep := pollTick_exhausted ls i he (hok i (by simp))
    have he2 : (pollTick ls i).state.exceededMaxRetry = true := by
      rw [hstep.1]; exact he
    have hrest := ih (pollTick ls i).state he2 (fun inp hm => hok inp (by simp [hm]))
    simp only [runTicks]
    refine ⟨hrest.1.trans hstep.1, ?_⟩
    simp [hstep.2, hrest.2]

/-- A failed repair whose resulting failure count reaches a positive
`maxRetryCount` reports that the retry limit was hit. -/
lemma applyRepair_fail_exceeded (q : WakeEventPoller) (now : Nat)
    (hmax : q.maxRetryCount > 0)
    (hge : (applyRepair q now false).1.consecutiveFails ≥ q.maxRetryCount) :
    (applyRepair q now false).2 = true := by
  unfold applyRepair incrementFails at hge ⊢
  simp only [Bool.false_eq_true, if_false] at hge ⊢
  split at hge <;> simp_all

/-- The configuration used in the C4 counterexample: base interval 1,
max interval 10, `maxRetryCount = 1`. -/
def pC4 : WakeEventPoller := NewWakeEventPoller 1 10 1

/-- Loop state after the startup check of `poll` found the device in
error and the repair failed: `consecutiveFails` has reached
`maxRetryCount`, but the loop-local `exceededMaxRetry` flag was not
armed because the startup check discards the `incrementFails` return
value. -/
def lsC4 : LoopState := pollStart pC4 (some "Error") false 0

/-- Tick input for the C4 counterexample: device still in error, user
active, backoff interval long expired. -/
def inpC4 : TickInput := ⟨some "Error", some 0, 100, false⟩

/-- Counterexample to C4 as stated: after the startup repair failure
`consecutiveFails` equals `maxRetryCount` (which is positive), no tick
has observed an OK status, and yet the very next tick attempts another
repair — because only tick-time repair failures arm the loop-local
exhaustion flag, while the startup check ignores the `incrementFails`
return value. -/
theorem c4_counterexample :
    lsC4.poller.consecutiveFails = lsC4.poller.maxRetryCount ∧
    lsC4.poller.maxRetryCount > 0 ∧
    inpC4.status ≠ some "OK" ∧
    (pollTick lsC4 inpC4).repairAttempted = true := by
  decide

/-- C4 as amended: (i) when a repair attempted on a tick fails and
brings `consecutiveFails` to `maxRetryCount` (positive), that tick
arms the exhaustion flag; (ii) while the flag is armed, no subsequent
tick attempts a repair — regardless of elapsed time — and the state is
unchanged as long as no tick observes status OK; (iii) the first
non-paused tick that observes OK resets the backoff state
(`consecutiveFails` to 0 and `currentBackoffInterval` to the base
interval), clears the flag and stores the OK status, resuming normal
operation.  (The startup check is the one exception to the original
claim: its repair failure does not arm the flag, as the counterexample
records.) -/
theorem c4_amended_exhaustion :
    (∀ ls inp, ls.poller.maxRetryCount > 0 →
      (pollTick ls inp).repairAttempted = true → inp.repairResult = false →
      (pollTick ls inp).state.poller.consecutiveFails ≥ ls.poller.maxRetryCount →
      (pollTick ls inp).state.exceededMaxRetry = true) ∧
    (∀ ls inps, ls.exceededMaxRetry = true →
      (∀ inp ∈ inps, inp.status ≠ some "OK") →
      (runTicks ls inps).final = ls ∧ (runTicks ls inps).anyRepaired = false) ∧
    (∀ ls inp, ls.exceededMaxRetry = true → ls.poller.paused = false →
      inp.status = some "OK" →
      pollTick ls inp =
        ⟨⟨{ ResetRetryState ls.poller with lastStatus := "OK" }, false⟩, true, false⟩) := by
  refine ⟨?_, ?_, ?_⟩
  · intro ls inp hmax hrep hres hge
    by_cases hp : ls.poller.paused = true
    · simp [pollTick, hp] at hrep
    replace hp : ls.poller.paused = false := by simpa using hp
    by_cases he : ls.exceededMaxRetry = true
    · rcases hst : inp.status with _ | st
      · simp [pollTick, hp, he, hst] at hrep
      · by_cases hok : st = "OK" <;> simp [pollTick, hp, he, hst, hok] at hrep
    replace he : ls.exceededMaxRetry = false := by simpa using he
    rcases hst : inp.status with _ | st
    · simp [pollTick, hp, he, hst] at hrep
    by_cases hok : st = "OK"
    · subst hok
      simp [pollTick, hp, he, hst] at hrep
    by_cases hlast : ls.poller.lastStatus = "OK"
    · by_cases hidle : idleSecOf inp.idleMs < 0 ∨ idleSecOf inp.idleMs ≥ 300
      · simp [pollTick, hp, he, hst, hok, hlast, hidle] at hrep
      · simp [pollTick, hp, he, hst, hok, hlast, hidle, hres] at hge ⊢
        exact applyRepair_fail_exceeded _ _ (by simpa [ResetRetryState] using hmax)
          (by simpa [ResetRetryState] using hge)
    · by_cases hpr : ls.poller.pendingRepair = true
      · by_cases hidle : idleSecOf inp.idleMs ≥ 0 ∧ idleSecOf inp.idleMs ≤ 60
        · simp [pollTick, hp, he, hst, hok, hlast, hpr, hidle, hres] at hge ⊢
          exact applyRepair_fail_exceeded _ _ (by simpa [ResetRetryState] using hmax)
            (by simpa [ResetRetryState] using hge)
        · simp [pollTick, hp, he, hst, hok, hlast, hpr, hidle] at hrep
      · replace hpr : ls.poller.pendingRepair = false := by simpa using hpr
        by_cases hidle : idleSecOf inp.idleMs ≥ 0 ∧ idleSecOf inp.idleMs > 60
        · simp [pollTick, hp, he, hst, hok, hlast, hpr, hidle] at hrep
        · by_cases hint : inp.now - ls.poller.lastRepairTime > ls.poller.currentInterval
          · simp [pollTick, hp, he, hst, hok, hlast, hpr, hidle, hint, hres] at hge ⊢
            exact applyRepair_fail_exceeded _ _ hmax hge
          · simp [pollTick, hp, he, hst, hok, hlast, hpr, hidle, hint] at hrep
  · intro ls inps he hok
    exact runTicks_exhausted inps ls he hok
  · intro ls inp he hp hst
    simp [pollTick, hp, he, hst]

/-- Concrete non-exhausted loop state one failure short of the retry
limit, used to witness part (i) of the amended C4. -/
def lsC4w : LoopState :=
  ⟨{ NewWakeEventPoller 1 10 2 with lastStatus := "Error", consecutiveFails := 1 }, false⟩

/-- Concrete exhausted loop state used to witness parts (ii) and
(iii) of the amended C4. -/
def lsC4e : LoopState :=
  ⟨{ NewWakeEventPoller 1 10 2 with lastStatus := "Error", consecutiveFails := 2 }, true⟩

/-- Witness for the amended C4 at concrete states: a failing tick
repair that reaches the limit arms the flag; an exhausted state
ignores an error tick; and an OK tick resets and disarms. -/
theorem c4_amended_exhaustion_witness :
    (pollTick lsC4w ⟨some "Error", some 0, 100, false⟩).state.exceededMaxRetry = true ∧
    ((runTicks lsC4e [⟨some "Error", some 0, 200, false⟩]).final = lsC4e ∧
      (runTicks lsC4e [⟨some "Error", some 0, 200, false⟩]).anyRepaired = false) ∧
    pollTick lsC4e ⟨some "OK", some 0, 300, false⟩ =
      ⟨⟨{ ResetRetryState lsC4e.poller with lastStatus := "OK" }, false⟩, true, false⟩ := by
  refine ⟨?_, ?_, ?_⟩
  · exact c4_amended_exhaustion.1 lsC4w ⟨some "Error", some 0, 100, false⟩ (by decide)
      (by decide) rfl (by decide)
  · exact c4_amended_exhaustion.2.1 lsC4e [⟨some "Error", some 0, 200, false⟩] rfl
      (by decide)
  · exact c4_amended_exhaustion.2.2 lsC4e ⟨some "OK", some 0, 300, false⟩ rfl rfl rfl

/-- The backoff-interval invariant from the spec: the current backoff
interval lies within the configured base and maximum intervals. -/
def intervalInBounds (p : WakeEventPoller) : Prop :=
  p.baseRetryInterval ≤ p.currentInterval ∧ p.currentInterval ≤ p.maxRetryInterval

/-- Lemma: `incrementFails` keeps the backoff interval within bounds and does
not touch the configured intervals. -/
lemma incrementFails_inv (p : WakeEventPoller)
    (h : p.baseRetryInterval ≤ p.maxRetryInterval) (hb : intervalInBounds p) :
    intervalInBounds (incrementFails p).1 ∧
    (incrementFails p).1.baseRetryInterval = p.baseRetryInterval ∧
    (incrementFails p).1.maxRetryInterval = p.maxRetryInterval := by
  obtain ⟨hb1, hb2⟩ := hb
  simp only [incrementFails, intervalInBounds]
  split
  · simpa using ⟨hb1, hb2⟩
  · split <;> simp <;> omega

/-- Lemma: `ResetRetryState` keeps the backoff interval within bounds and
does not touch the configured intervals. -/
lemma ResetRetryState_inv (p : WakeEventPoller)
    (h : p.baseRetryInterval ≤ p.maxRetryInterval) :
    intervalInBounds (ResetRetryState p) ∧
    (ResetRetryState p).baseRetryInterval = p.baseRetryInterval ∧
    (ResetRetryState p).maxRetryInterval = p.maxRetryInterval := by
  simp [ResetRetryState, intervalInBounds, h]

/-- Lemma: `applyRepair` keeps the backoff interval within bounds and does
not touch the configured intervals. -/
lemma applyRepair_inv (p : WakeEventPoller) (now : Nat) (success : Bool)
    (h : p.baseRetryInterval ≤ p.maxRetryInterval) (hb : intervalInBounds p) :
    intervalInBounds (applyRepair p now success).1 ∧
    (applyRepair p now success).1.baseRetryInterval = p.baseRetryInterval ∧
    (applyRepair p now success).1.maxRetryInterval = p.maxRetryInterval := by
  unfold applyRepair
  rcases success with _ | _
  · simp only [Bool.false_eq_true, if_false]
    exact incrementFails_inv _ (by simpa using h) (by simpa [intervalInBounds] using hb)
  · simp only [if_true]
    exact ResetRetryState_inv _ (by simpa using h)

/-- One poll tick keeps the backoff interval within bounds and does
not touch the configured intervals. -/
lemma pollTick_inv (ls : LoopState) (inp : TickInput)
    (h : ls.poller.baseRetryInterval ≤ ls.poller.maxRetryInterval)
    (hb : intervalInBounds ls.poller) :
    intervalInBounds (pollTick ls inp).state.poller ∧
    (pollTick ls inp).state.poller.baseRetryInterval = ls.poller.baseRetryInterval ∧
    (pollTick ls inp).state.poller.maxRetryInterval = ls.poller.maxRetryInterval := by
  by_cases hp : ls.poller.paused = true
  · have heq : (pollTick ls inp).state.poller = ls.poller := by simp [pollTick, hp]
    rw [heq]
    exact ⟨hb, rfl, rfl⟩
  replace hp : ls.poller.paused = false := by simpa using hp
  by_cases he : ls.exceededMaxRetry = true
  · rcases hst : inp.status with _ | st
    · have heq : (pollTick ls inp).state.poller = ls.poller := by
        simp [pollTick, hp, he, hst]
      rw [heq]
      exact ⟨hb, rfl, rfl⟩
    · by_cases hok : st = "OK"
      · have heq : (pollTick ls inp).state.poller =
            { ResetRetryState ls.poller with lastStatus := st } := by
          simp [pollTick, hp, he, hst, hok]
        rw [heq]
        exact ⟨⟨le_refl _, h⟩, rfl, rfl⟩
      · have heq : (pollTick ls inp).state.poller = ls.poller := by
          simp [pollTick, hp, he, hst, hok]
        rw [heq]
        exact ⟨hb, rfl, rfl⟩
  replace he : ls.exceededMaxRetry = false := by simpa using he
  rcases hst : inp.status with _ | st
  · have heq : (pollTick ls inp).state.poller = ls.poller := by
      simp [pollTick, hp, he, hst]
    rw [heq]
    exact ⟨hb, rfl, rfl⟩
  by_cases hok : st = "OK"
  · have heq : (pollTick ls inp).state.poller =
        { ls.poller with pendingRepair := false, lastStatus := st } := by
      simp [pollTick, hp, he, hst, hok]
    rw [heq]
    exact ⟨hb, rfl, rfl⟩
  by_cases hlast : ls.poller.lastStatus = "OK"
  · by_cases hidle : idleSecOf inp.idleMs < 0 ∨ idleSecOf inp.idleMs ≥ 300
    · have heq : (pollTick ls inp).state.poller =
          { ls.poller with pendingRepair := true, lastStatus := st } := by
        simp [pollTick, hp, he, hst, hok, hlast, hidle]
      rw [heq]
      exact ⟨hb, rfl, rfl⟩
    · have har := applyRepair_inv
        (ResetRetryState { ls.poller with pendingRepair := false })
        inp.now inp.repairResult h ⟨le_refl _, h⟩
      have heq : (pollTick ls inp).state.poller =
          { (applyRepair (ResetRetryState { ls.poller with pendingRepair := false })
              inp.now inp.repairResult).1 with lastStatus := st } := by
        simp [pollTick, hp, he, hst, hok, hlast, hidle]
      rw [heq]
      exact ⟨har.1, har.2.1, har.2.2⟩
  · by_cases hpr : ls.poller.pendingRepair = true
    · by_cases hidle : idleSecOf inp.idleMs ≥ 0 ∧ idleSecOf inp.idleMs ≤ 60
      · have har := applyRepair_inv
          (ResetRetryState { ls.poller with pendingRepair := false })
          inp.now inp.repairResult h ⟨le_refl _, h⟩
        have heq : (pollTick ls inp).state.poller =
            { (applyRepair (ResetRetryState { ls.poller with pendingRepair := false })
                inp.now inp.repairResult).1 with lastStatus := st } := by
          simp [pollTick, hp, he, hst, hok, hlast, hpr, hidle]
        rw [heq]
        exact ⟨har.1, har.2.1, har.2.2⟩
      · have heq : (pollTick ls inp).state.poller = ls.poller := by
          simp [pollTick, hp, he, hst, hok, hlast, hpr, hidle]
        rw [heq]
        exact ⟨hb, rfl, rfl⟩
    · replace hpr : ls.poller.pendingRepair = false := by simpa using hpr
      by_cases hidle : idleSecOf inp.idleMs ≥ 0 ∧ idleSecOf inp.idleMs > 60
      · have heq : (pollTick ls inp).state.poller = ls.poller := by
          simp [pollTick, hp, he, hst, hok, hlast, hpr, hidle]
        rw [heq]
        exact ⟨hb, rfl, rfl⟩
      · by_cases hint : inp.now - ls.poller.lastRepairTime > ls.poller.currentInterval
        · have har := applyRepair_inv ls.poller inp.now inp.repairResult h hb
          have heq : (pollTick ls inp).state.poller =
              { (applyRepair ls.poller inp.now inp.repairResult).1 with
                  lastStatus := st } := by
            simp [pollTick, hp, he, hst, hok, hlast, hpr, hidle, hint]
          rw [heq]
          exact ⟨har.1, har.2.1, har.2.2⟩
        · have heq : (pollTick ls inp).state.poller =
              { ls.poller with lastStatus := st } := by
            simp [pollTick, hp, he, hst, hok, hlast, hpr, hidle, hint]
          rw [heq]
          exact ⟨hb, rfl, rfl⟩

/-- The startup check keeps the backoff interval within bounds and
does not touch the configured intervals. -/
lemma pollStart_inv (p : WakeEventPoller) (status : Option String)
    (repairResult : Bool) (now : Nat)
    (h : p.baseRetryInterval ≤ p.maxRetryInterval) (hb : intervalInBounds p) :
    intervalInBounds (pollStart p status repairResult now).poller ∧
    (pollStart p status repairResult now).poller.baseRetryInterval =
      p.baseRetryInterval ∧
    (pollStart p status repairResult now).poller.maxRetryInterval =
      p.maxRetryInterval := by
  rcases status with _ | st
  · exact ⟨hb, rfl, rfl⟩
  by_cases hok : st = "OK"
  · have heq : (pollStart p (some st) repairResult now).poller =
        { p with lastStatus := st } := by
      simp [pollStart, hok]
    rw [heq]
    exact ⟨hb, rfl, rfl⟩
  rcases repairResult with _ | _
  · have hif := incrementFails_inv
      { p with lastStatus := st, lastRepairTime := now } h hb
    have heq : (pollStart p (some st) false now).poller =
        (incrementFails { p with lastStatus := st, lastRepairTime := now }).1 := by
      simp [pollStart, hok]
    rw [heq]
    exact ⟨hif.1, hif.2.1, hif.2.2⟩
  · have heq : (pollStart p (some st) true now).poller =
        ResetRetryState { p with lastStatus := st, lastRepairTime := now } := by
      simp [pollStart, hok]
    rw [heq]
    exact ⟨⟨le_refl _, h⟩, rfl, rfl⟩

/-- Running any sequence of ticks from a state satisfying the
interval invariant preserves it. -/
lemma runTicks_inv (inps : List TickInput) (ls : LoopState)
    (h : ls.poller.baseRetryInterval ≤ ls.poller.maxRetryInterval)
    (hb : intervalInBounds ls.poller) :
    intervalInBounds (runTicks ls inps).final.poller := by
  induction inps generalizing ls with
  | nil => simpa [runTicks] using hb
  | cons i rest ih =>
    have step := pollTick_inv ls i h hb
    simp only [runTicks]
    exact ih (pollTick ls i).state (by rw [step.2.1, step.2.2]; exact h) step.1

/-- C5: with `baseRetryInterval ≤ maxRetryInterval`, the backoff
interval starts at the base interval and stays within
`[baseRetryInterval, maxRetryInterval]` along every run: after the
startup check and any sequence of ticks (hence, since the input
sequence is arbitrary, at every intermediate state), and each single
tick preserves the bounds (doubling on failure is capped at the
maximum, success and OK-recovery reset to the base). -/
theorem c5_backoff_interval_bounds (b m mr : Nat) (startStatus : Option String)
    (srep : Bool) (snow : Nat) (inps : List TickInput) (h : b ≤ m) :
    (NewWakeEventPoller b m mr).currentInterval = b ∧
    intervalInBounds
      (runTicks (pollStart (NewWakeEventPoller b m mr) startStatus srep snow)
        inps).final.poller := by
  refine ⟨rfl, ?_⟩
  have hinit : intervalInBounds (NewWakeEventPoller b m mr) := by
    simp [NewWakeEventPoller, intervalInBounds, h]
  have hs := pollStart_inv (NewWakeEventPoller b m mr) startStatus srep snow
    (by simpa [NewWakeEventPoller] using h) hinit
  exact runTicks_inv inps _ (by rw [hs.2.1, hs.2.2]; simpa [NewWakeEventPoller] using h)
    hs.1

/-- Witness for C5 at a concrete configuration and run: base 2, max
15, one startup failure and two failing ticks keep the interval within
bounds. -/
theorem c5_backoff_interval_bounds_witness :
    (NewWakeEventPoller 2 15 0).currentInterval = 2 ∧
    intervalInBounds
      (runTicks (pollStart (NewWakeEventPoller 2 15 0) (some "Error") false 0)
        [⟨some "Error", some 0, 100, false⟩,
         ⟨some "Error", some 0, 200, false⟩]).final.poller := by
  have h := c5_backoff_interval_bounds 2 15 0 (some "Error") false 0
    [⟨some "Error", some 0, 100, false⟩, ⟨some "Error", some 0, 200, false⟩]
    (by decide)
  exact ⟨h.1, h.2⟩

/-- When at least `minInterval` has elapsed since the last accepted
trigger, `triggerResume` accepts (the debounce guard passes). -/
lemma triggerResume_accepts (q : PowerMonitor) (now : Int)
    (h : q.minInterval ≤ now - q.lastResumeTime) :
    (triggerResume q now).2 = true := by
  have hn : ¬(now - q.lastResumeTime < q.minInterval) := by omega
  simp [triggerResume, hn]

/-- C8: `HandlePowerBroadcast` classifies as resume triggers exactly
the legacy power events with code 7 or 18 and the monitored
display-power setting changes whose stored previous state is off (0)
and whose new state is on (2).  First conjunct: when the debounce
guard passes, the callback is invoked iff the event is one of those.
Second conjunct: a monitored setting-change event that is not an
off-to-on transition (dimmed transitions, on-to-off, and so on) never
invokes the callback, debounce aside. -/
theorem c8_broadcast_classification (pm : PowerMonitor) (now : Int)
    (inp : BroadcastInput) :
    (pm.minInterval ≤ now - pm.lastResumeTime →
      ((HandlePowerBroadcast pm now inp).2 = true ↔ IsResumeTriggerEvent pm inp)) ∧
    (inp.eventType = PBT_POWERSETTINGCHANGE →
      ∀ g d, inp.setting = some (g, d) →
        ¬(pm.lastDisplayState = DisplayStateOff ∧ d = DisplayStateOn) →
        (HandlePowerBroadcast pm now inp).2 = false) := by
  obtain ⟨et, setting⟩ := inp
  constructor
  · intro hdeb
    by_cases het : et = PBT_POWERSETTINGCHANGE
    · subst het
      rcases setting with _ | ⟨g, d⟩
      · simp [HandlePowerBroadcast, IsResumeTriggerEvent]
      · by_cases hg : g = PowerGUID.consoleDisplayState ∨ g = PowerGUID.monitorPowerOn
        · by_cases hoo : pm.lastDisplayState = DisplayStateOff ∧ d = DisplayStateOn
          · obtain ⟨hoff, hon⟩ := hoo
            subst hon
            have hfire := triggerResume_accepts
              { pm with lastDisplayState := DisplayStateOn } now hdeb
            simp [HandlePowerBroadcast, IsResumeTriggerEvent, hg, hoff, hfire]
          · simp [HandlePowerBroadcast, IsResumeTriggerEvent, hg, hoo]
        · simp [HandlePowerBroadcast, IsResumeTriggerEvent, hg]
    · by_cases hcode : et = 7 ∨ et = 18
      · have hfire := triggerResume_accepts pm now hdeb
        simp [HandlePowerBroadcast, IsResumeTriggerEvent, het, hcode, hfire]
      · simp [HandlePowerBroadcast, IsResumeTriggerEvent, het, hcode]
  · intro het g d hset hnoo
    subst het hset
    by_cases hg : g = PowerGUID.consoleDisplayState ∨ g = PowerGUID.monitorPowerOn
    · simp [HandlePowerBroadcast, hg, hnoo]
    · simp [HandlePowerBroadcast, hg]

/-- Concrete power monitor with the display recorded as off, used to
witness C8. -/
def pmC8 : PowerMonitor := ⟨DisplayStateOff, 0, 5⟩

/-- Legacy resume event (code 7) used to witness C8. -/
def inpC8legacy : BroadcastInput := ⟨7, none⟩

/-- Monitored setting-change to the dimmed state, used to witness C8's
negative half. -/
def inpC8dim : BroadcastInput :=
  ⟨PBT_POWERSETTINGCHANGE, some (PowerGUID.consoleDisplayState, DisplayStateDimmed)⟩

/-- Witness for C8: with the debounce guard passing, legacy code 7
fires the callback and a monitored dimmed transition does not. -/
theorem c8_broadcast_classification_witness :
    (HandlePowerBroadcast pmC8 10 inpC8legacy).2 = true ∧
    (HandlePowerBroadcast pmC8 10 inpC8dim).2 = false := by
  constructor
  · exact ((c8_broadcast_classification pmC8 10 inpC8legacy).1 (by decide)).mpr
      (Or.inl ⟨by decide, Or.inl rfl⟩)
  · exact (c8_broadcast_classification pmC8 10 inpC8dim).2 rfl
      PowerGUID.consoleDisplayState DisplayStateDimmed rfl (by decide)

/-- C9: in `handlePolledWake`, a repair attempt is recorded as a
success (`RecordReset(true)`) exactly when the post-reset verification
query was performed and confirmed OK; a reset that completes without
error but leaves a non-OK status is recorded as a failure; an attempt
whose verification query fails is recorded as a failure; and the
boolean outcome reported by the run is true exactly when the last
observed status of the run is OK — so a reported failure never
corresponds to an observed final OK status. -/
theorem c9_repair_success_verification (inp : WakeInput) :
    ((handlePolledWake inp).recordedReset = some true ↔
      (handlePolledWake inp).postQueried = true ∧
        ∃ fs, inp.postStatus = some fs ∧ eqFoldOK fs = true) ∧
    ((handlePolledWake inp).resetInvoked = true → inp.resetOk = true →
      (∀ fs, inp.postStatus = some fs → eqFoldOK fs = false) →
      (handlePolledWake inp).recordedReset = some false) ∧
    ((handlePolledWake inp).resetInvoked = true → inp.resetOk = true →
      inp.postStatus = none → (handlePolledWake inp).recordedReset = some false) ∧
    ((handlePolledWake inp).returned = true ↔
      ∃ s, (handlePolledWake inp).lastObserved = some s ∧ eqFoldOK s = true) := by
  obtain ⟨pre, rok, post⟩ := inp
  have main : ∀ preo : Option String,
      (∀ st, preo = some st → eqFoldOK st = false) →
      ((resetAndVerify ⟨preo, rok, post⟩ preo).recordedReset = some true ↔
        (resetAndVerify ⟨preo, rok, post⟩ preo).postQueried = true ∧
          ∃ fs, post = some fs ∧ eqFoldOK fs = true) ∧
      ((resetAndVerify ⟨preo, rok, post⟩ preo).resetInvoked = true → rok = true →
        (∀ fs, post = some fs → eqFoldOK fs = false) →
        (resetAndVerify ⟨preo, rok, post⟩ preo).recordedReset = some false) ∧
      ((resetAndVerify ⟨preo, rok, post⟩ preo).resetInvoked = true → rok = true →
        post = none → (resetAndVerify ⟨preo, rok, post⟩ preo).recordedReset = some false) ∧
      ((resetAndVerify ⟨preo, rok, post⟩ preo).returned = true ↔
        ∃ s, (resetAndVerify ⟨preo, rok, post⟩ preo).lastObserved = some s ∧
          eqFoldOK s = true) := by
    intro preo hpre
    rcases rok with _ | _
    · rcases post with _ | fs
      · refine ⟨by simp [resetAndVerify], by simp [resetAndVerify], ?_, ?_⟩
        · simp [resetAndVerify]
        · simp only [resetAndVerify, Bool.not_false, if_true]
          constructor
          · intro hfalse
            exact absurd hfalse (by simp)
          · rintro ⟨s, hs, hfold⟩
            exact absurd hfold (by simp [hpre s hs])
      · refine ⟨by simp [resetAndVerify], by simp [resetAndVerify], ?_, ?_⟩
        · simp [resetAndVerify]
        · simp only [resetAndVerify, Bool.not_false, if_true]
          constructor
          · intro hfalse
            exact absurd hfalse (by simp)
          · rintro ⟨s, hs, hfold⟩
            exact absurd hfold (by simp [hpre s hs])
    · rcases post with _ | fs
      · refine ⟨by simp [resetAndVerify], by simp [resetAndVerify],
          by simp [resetAndVerify], ?_⟩
        constructor
        · intro hfalse
          exact absurd hfalse (by simp [resetAndVerify])
        · rintro ⟨s, hs, hfold⟩
          have hs2 : preo = some s := by simpa [resetAndVerify] using hs
          exact absurd hfold (by simp [hpre s hs2])
      · rcases hf : eqFoldOK fs with _ | _
        · refine ⟨by simp [resetAndVerify, hf], ?_, by simp [resetAndVerify, hf],
            by simp [resetAndVerify, hf]⟩
          intro _ _ hall
          simp [resetAndVerify, hf]
        · exact ⟨by simp [resetAndVerify, hf], by simp [resetAndVerify, hf],
            by simp [resetAndVerify, hf], by simp [resetAndVerify, hf]⟩
  rcases pre with _ | st
  · have h := main none (by simp)
    simpa [handlePolledWake] using h
  · rcases hs : eqFoldOK st with _ | _
    · have h := main (some st) (by simpa using hs)
      simpa [handlePolledWake, hs] using h
    · refine ⟨by simp [handlePolledWake, hs], by simp [handlePolledWake, hs],
        by simp [handlePolledWake, hs], ?_⟩
      simp [handlePolledWake, hs]

/-- Concrete orchestrator input used to witness C9: pre-check sees an
error, the reset completes, and verification confirms OK. -/
def wC9 : WakeInput := ⟨some "Error", true, some "OK"⟩

/-- Witness for C9: at the concrete input the recorded reset outcome
is success and the reported outcome corresponds to a final observed
OK status. -/
theorem c9_repair_success_verification_witness :
    (handlePolledWake wC9).recordedReset = some true ∧
    (handlePolledWake wC9).returned = true := by
  have h := c9_repair_success_verification wC9
  constructor
  · exact h.1.mpr ⟨by decide, "OK", rfl, by decide⟩
  · exact h.2.2.2.mpr ⟨"OK", by decide, by decide⟩

end GpdTouchFix
